import Mathlib

/-!
Verification of the ilias check-execution and rule-evaluation engine.

The Go sources are embedded shallowly:

* `internal/config` — the data model consumed by the evaluator
  (`Status`, `MatchValue`, `Match`, `Rule`, `Check`, `Slot`, `Tile`,
  `Group`, `Config`).  A compiled Go `*regexp.Regexp` is modelled as a
  matcher function `String → Bool` whose meaning is that of
  `(*Regexp).MatchString`: an unanchored search that reports whether the
  regex matches anywhere in the string.  Run-time compilation
  (`regexp.Compile`) is modelled as an explicit parameter
  `compile : String → Option (String → Bool)`, `none` meaning the
  pattern does not compile.
* `internal/evaluator` — `Evaluate`, `matchesRule`, `matchCode`,
  `matchOutput`, `BuiltinErrorStatus`, translated clause by clause.
* `internal/checker` — `HTTPChecker.Check` and `CommandChecker.Check`
  as functions of the outcome of the underlying library call
  (`http.Client.Do` / `exec.Cmd.Run`), which is I/O and therefore enters
  the model as an explicit outcome value.
* `internal/runner` — `Run` and `runSlot`.  The Go runner executes the
  slot tasks concurrently, but every task writes a statically distinct
  leaf of the result tree, so the populated tree equals the one obtained
  by running every slot in order; `Run` is embedded as that pure tree
  construction, parametrised by the probe outcomes.

Machine integers: Go `int` values that the engine compares and renders
(`Result.Code`, exit codes, HTTP status codes) stay far from the 64-bit
boundary, so they are modelled as `Int` without wrap-around.
-/

namespace Ilias

/-- A status identifier and its display label (`config.Status`). -/
structure Status where
  ID : String
  Label : String
deriving Repr, DecidableEq

/-- A code match value: exact integer or compiled regex
(`config.MatchValue`).  The regex is its `MatchString` matcher. -/
structure MatchValue where
  Exact : Option Int
  Regex : Option (String → Bool)

/-- Conditions of a rule; an empty match is a catch-all (`config.Match`). -/
structure Match where
  Code : Option MatchValue
  Output : String

/-- A condition and the resulting status if matched (`config.Rule`). -/
structure Rule where
  Match : Match
  Status : Status

/-- Outcome of a check execution (`checker.Result`).  The Go `error` is
modelled as an optional message. -/
structure Result where
  Code : Int
  Output : String
  Err : Option String
deriving Repr

/-- The default status when a check fails and no rules match
(`evaluator.BuiltinErrorStatus`). -/
def BuiltinErrorStatus : Status :=
  { ID := "error", Label := "⚡" }

/-- Compilation of a regex pattern at evaluation time
(`regexp.Compile`): `none` models a compile error. -/
abbrev RegexCompiler := String → Option (String → Bool)

/-- Whether the result code matches the `MatchValue` (exact int or
regex), translating `evaluator.matchCode`.  `strconv.Itoa` is the
decimal rendering `toString : Int → String`. -/
def matchCode (code : Int) (mv : MatchValue) : Bool :=
  match mv.Exact with
  | some e => code == e
  | none =>
    match mv.Regex with
    | some re => re (toString code)
    | none => false

/-- Whether the result output matches the regex pattern, translating
`evaluator.matchOutput`: the pattern is compiled at match time and a
compile failure is reported (a logged warning in Go) and treated as a
non-match. -/
def matchOutput (compile : RegexCompiler) (output pattern : String) : Bool :=
  match compile pattern with
  | none => false
  | some re => re output

/-- Whether a result satisfies a match condition, translating
`evaluator.matchesRule`.  When the check itself failed only catch-all
rules match.  Otherwise the Go function tests the code condition and
the output condition with early `return false`, and both of its final
returns are `true` (the `hasCondition` flag does not change the result),
which is exactly the conjunction below. -/
def matchesRule (compile : RegexCompiler) (result : Result) (m : Match) : Bool :=
  if result.Err.isSome then
    m.Code.isNone && m.Output == ""
  else
    (match m.Code with
     | some mv => matchCode result.Code mv
     | none => true)
    &&
    (if m.Output != "" then matchOutput compile result.Output m.Output else true)

/-- Translation of `evaluator.Evaluate`: first matching rule wins; with
no match the
default status is used when present, and otherwise the builtin error
status — the Go function distinguishes the errored and non-errored
no-match cases but returns `BuiltinErrorStatus` in both. -/
def Evaluate (compile : RegexCompiler) (result : Result) :
    List Rule → Option Status → Status
  | [], defaultStatus =>
    match defaultStatus with
    | some s => s
    | none =>
      if result.Err.isSome then BuiltinErrorStatus else BuiltinErrorStatus
  | rule :: rest, defaultStatus =>
    if matchesRule compile result rule.Match then rule.Status
    else Evaluate compile result rest defaultStatus

/-!
The checker layer (`internal/checker`).  Timeouts are `time.Duration`
values in nanoseconds, modelled as `Nat`.
-/

/-- The default check timeout, `checker.defaultTimeout = 30 *
time.Second`, in nanoseconds. -/
def defaultTimeout : Nat := 30 * 1000000000

/-- The outcome of `exec.Cmd.Run` for a `CommandChecker`, as classified
by the Go code's `err.(*exec.ExitError)` assertion:

* `none` — the process ran and exited with status 0;
* `some (exit c)` — `Run` returned an `*exec.ExitError`: the process
  started and terminated with exit code `c` (for a process killed by a
  signal — in particular one killed by `exec.CommandContext` when the
  context deadline expires or the context is cancelled after the process
  has started — `ExitCode()` reports `-1`);
* `some (startFailure msg)` — any other error: the command could not be
  executed at all (not found, permission denied, context already done
  before the process was started). -/
inductive CmdRunError where
  | exit (code : Int)
  | startFailure (msg : String)
deriving Repr, DecidableEq

/-- Modelled from Go `os/exec` semantics (the spec's design notes record
the same observed behaviour): a context deadline that expires, or a
cancellation that fires, while the spawned process is still running
kills the process, and `Run` then returns an `*exec.ExitError` whose
`ExitCode()` is `-1`. -/
def deadlineExpiredWhileRunning : CmdRunError := .exit (-1)

/-- The common tail of `CommandChecker.Check`: include stderr alongside
stdout so failures always have diagnostic output (stderr appended after
stdout, separated by a newline), the whole trimmed, with no execution
error. -/
def commandSuccess (exitCode : Int) (stdout stderr : String) : Result :=
  let out := if stderr != "" then
               (if stdout != "" then stdout ++ "\n" ++ stderr else stderr)
             else stdout
  { Code := exitCode, Output := out.trim, Err := none }

/-- Translation of `CommandChecker.Check`, as a function of what the
process wrote to stdout and stderr and of the outcome of `cmd.Run()`:
a non-`ExitError` failure returns code `-1`, the trimmed direct
concatenation of stdout and stderr, and the execution error; otherwise
the exit code (0 when `Run` returned nil) with the combined, trimmed
output and no execution error. -/
def CommandCheck (stdout stderr : String) (runErr : Option CmdRunError) : Result :=
  match runErr with
  | some (.startFailure msg) =>
    { Code := -1
      Output := (stdout ++ stderr).trim
      Err := some ("executing command: " ++ msg) }
  | some (.exit exitCode) => commandSuccess exitCode stdout stderr
  | none => commandSuccess 0 stdout stderr

/-- The 1 MiB body cap of `HTTPChecker.Check`
(`io.LimitReader(resp.Body, 1<<20)`): at most `2^20` units of the body
are kept and the excess is discarded.  Go counts bytes; the model
counts characters of the body string. -/
def capBody (body : String) : String := body.take (1 <<< 20)

/-- The outcome of the underlying HTTP library calls made by
`HTTPChecker.Check`:

* `reqError` — `http.NewRequestWithContext` failed (malformed URL);
* `doError` — `client.Do` failed, so no response was obtained at all
  (DNS failure, connection refused, TLS failure, deadline exceeded,
  context cancelled);
* `readError` — a response with the given status arrived but reading
  its body failed part-way;
* `response` — a response arrived and its body (after the 1 MiB limit)
  was read in full. -/
inductive HTTPOutcome where
  | reqError (msg : String)
  | doError (msg : String)
  | readError (status : Int) (msg : String)
  | response (status : Int) (body : String)

/-- Translation of `HTTPChecker.Check` as a function of the library
outcome, branch by branch.  Fields the Go code leaves at their zero
value are 0 and the empty string. -/
def HTTPCheck (outcome : HTTPOutcome) : Result :=
  match outcome with
  | .reqError msg =>
    { Code := 0, Output := "", Err := some ("creating request: " ++ msg) }
  | .doError msg =>
    { Code := 0, Output := "", Err := some ("performing request: " ++ msg) }
  | .readError status msg =>
    { Code := status, Output := "", Err := some ("reading response body: " ++ msg) }
  | .response status body =>
    { Code := status, Output := capBody body, Err := none }

/-- The two checkers `checker.NewChecker` can build, with their
resolved timeout. -/
inductive Checker where
  | http (url : String) (timeout : Nat)
  | command (cmd : String) (timeout : Nat)
deriving Repr, DecidableEq

/-- Translation of `checker.NewChecker`: a zero timeout falls back to
the default, and an unknown check type is an error. -/
def NewChecker (checkType target : String) (timeout : Nat) : Except String Checker :=
  let timeout := if timeout = 0 then defaultTimeout else timeout
  match checkType with
  | "http" => .ok (.http target timeout)
  | "command" => .ok (.command target timeout)
  | _ => .error ("unknown check type: " ++ checkType)

/-!
The runner layer (`internal/runner` and the configuration tree it
consumes from `internal/config`).
-/

/-- A tile's optional pre-render side-effect command
(`config.Generate`). -/
structure Generate where
  Command : String
  Timeout : Nat
deriving Repr, DecidableEq

/-- How to obtain status information (`config.Check`); the Go field
`Type` ("http" or "command") is named `CheckType` because `Type` is
reserved in Lean. -/
structure Check where
  CheckType : String
  Target : String
  Timeout : Nat
deriving Repr, DecidableEq

/-- A named indicator with its check, rules and optional default status
(`config.Slot`). -/
structure Slot where
  Name : String
  Check : Check
  Rules : List Rule
  DefaultStatus : Option Status

/-- A dashboard tile (`config.Tile`). -/
structure Tile where
  Name : String
  Display : String
  Icon : String
  Link : String
  Banner : Option String
  Generate : Option Generate
  Slots : List Slot

/-- A named group of tiles (`config.Group`). -/
structure Group where
  Name : String
  Tiles : List Tile

/-- The full configuration tree (`config.Config`); `Refresh` is a
duration in nanoseconds. -/
structure Config where
  Title : String
  Theme : String
  Refresh : Nat
  Groups : List Group

/-- The evaluated status for a single slot (`runner.SlotResult`). -/
structure SlotResult where
  Name : String
  Status : Status
  Output : String
deriving Repr, DecidableEq

/-- All evaluated results for a single tile (`runner.TileResult`). -/
structure TileResult where
  Name : String
  Display : String
  Link : String
  Slots : List SlotResult
deriving Repr, DecidableEq

/-- All tile results for a group (`runner.GroupResult`). -/
structure GroupResult where
  Name : String
  Tiles : List TileResult
deriving Repr, DecidableEq

/-- The full evaluated dashboard state (`runner.DashboardResult`). -/
structure DashboardResult where
  Title : String
  Theme : String
  RefreshSeconds : Nat
  Groups : List GroupResult
deriving Repr, DecidableEq

/-- Translation of `runner.runGenerate` as a function of the outcome of
`cmd.CombinedOutput()`: any error — including the `ExitError` produced
when the deadline kills the running command — is returned as a failure
message; success returns nothing. -/
def runGenerate (combinedOutput : String) (runErr : Option CmdRunError) (gen : Generate) :
    Option String :=
  match runErr with
  | some _ => some ("command " ++ gen.Command ++ " failed (output: " ++ combinedOutput ++ ")")
  | none => none

/-- Translation of `runner.runSlot`, parametrised by the probe
outcomes: `probe`
gives the `Result` that `chk.Check(ctx)` produces for the constructed
checker.  When the checker cannot be built the slot resolves directly
to its default status (or the builtin error status) with empty output,
without running a check or consulting the rules. -/
def runSlot (compile : RegexCompiler) (probe : Checker → Result) (slot : Slot) : SlotResult :=
  match NewChecker slot.Check.CheckType slot.Check.Target slot.Check.Timeout with
  | .error _ =>
    let status := match slot.DefaultStatus with
                  | some s => s
                  | none => BuiltinErrorStatus
    { Name := slot.Name, Status := status, Output := "" }
  | .ok chk =>
    let result := probe chk
    { Name := slot.Name
      Status := Evaluate compile result slot.Rules slot.DefaultStatus
      Output := result.Output }

/-- Translation of `runner.Run`.  The Go function schedules one task
per generate step
and one per slot under a bounded semaphore; each task writes its own
statically distinct leaf of the preallocated result tree and `Run`
waits for all of them, so the populated tree is the one built below by
visiting every slot in order.  Generate outcomes (`genOutcome`) only
produce log warnings — they never reach the returned tree — and the Go
function always returns a nil error alongside the tree. -/
def Run (compile : RegexCompiler) (probe : Checker → Result)
    (_genOutcome : Generate → Option String) (cfg : Config) :
    Except String DashboardResult :=
  .ok
    { Title := cfg.Title
      Theme := cfg.Theme
      RefreshSeconds := cfg.Refresh / 1000000000
      Groups := cfg.Groups.map (fun g =>
        { Name := g.Name
          Tiles := g.Tiles.map (fun t =>
            { Name := t.Name
              Display := t.Display
              Link := t.Link
              Slots := t.Slots.map (runSlot compile probe) }) }) }

/-!
Specification-side predicates for the match semantics (written from the
spec's words, to be compared with `matchesRule`).
-/

/-- Well-formedness of a code condition, from the data model: the code
match value is an exact integer or a regex (never neither). -/
def MatchValueWF (mv : MatchValue) : Prop :=
  mv.Exact.isSome ∨ mv.Regex.isSome

/-- Well-formedness of a match: its code condition, when present, is
well formed. -/
def MatchWF (m : Match) : Prop :=
  ∀ mv, m.Code = some mv → MatchValueWF mv

/-- The spec's description of when a rule matches a result that carries
no execution error: all specified conditions hold — an exact-integer
code condition holds iff it equals the result code, a regex code
condition holds iff the regex matches the decimal rendering of the
code, and an output condition holds iff its compiled regex matches the
output. -/
def SpecRuleMatches (compile : RegexCompiler) (result : Result) (m : Match) : Prop :=
  (∀ mv e, m.Code = some mv → mv.Exact = some e → result.Code = e)
  ∧ (∀ mv re, m.Code = some mv → mv.Exact = none → mv.Regex = some re →
      re (toString result.Code) = true)
  ∧ (m.Output ≠ "" → ∃ re, compile m.Output = some re ∧ re result.Output = true)

/-!
Helper lemmas.
-/

theorem matchOutput_eq_true_iff (compile : RegexCompiler) (output pattern : String) :
    matchOutput compile output pattern = true
    ↔ ∃ re, compile pattern = some re ∧ re output = true := by
  unfold matchOutput
  cases h : compile pattern with
  | none => simp
  | some re => simp

theorem matchesRule_of_noError (compile : RegexCompiler) (result : Result) (m : Match)
    (he : result.Err = none) :
    matchesRule compile result m =
      ((match m.Code with
        | some mv => matchCode result.Code mv
        | none => true)
       && (if m.Output != "" then matchOutput compile result.Output m.Output else true)) := by
  simp [matchesRule, he]

theorem outputCond_iff (compile : RegexCompiler) (result : Result) (m : Match) :
    ((if m.Output != "" then matchOutput compile result.Output m.Output else true) = true)
    ↔ (m.Output ≠ "" → ∃ re, compile m.Output = some re ∧ re result.Output = true) := by
  by_cases ho : m.Output = ""
  · simp [ho]
  · simp [ho, matchOutput_eq_true_iff]

/-!
The claims.
-/

/-- Claim C1: for every raw result and ordered rule list, `Evaluate`
returns the status of the first rule (by declared index) whose match is
satisfied by the result; no later rule influences the outcome. -/
theorem evaluate_first_matching_rule_wins
    (compile : RegexCompiler) (result : Result) (rules : List Rule)
    (defaultStatus : Option Status) (i : Nat) (r : Rule)
    (hr : rules[i]? = some r)
    (hm : matchesRule compile result r.Match = true)
    (hfirst : ∀ j rj, j < i → rules[j]? = some rj →
      matchesRule compile result rj.Match = false) :
    Evaluate compile result rules defaultStatus = r.Status := by
  induction rules generalizing i with
  | nil => simp at hr
  | cons head tail ih =>
    cases i with
    | zero =>
      simp only [List.getElem?_cons_zero, Option.some.injEq] at hr
      subst hr
      simp [Evaluate, hm]
    | succ k =>
      have h0 : matchesRule compile result head.Match = false :=
        hfirst 0 head (Nat.succ_pos k) (by simp)
      simp only [Evaluate, h0, Bool.false_eq_true, if_false]
      exact ih k (by simpa using hr)
        (fun j rj hj hget =>
          hfirst (j + 1) rj (Nat.succ_lt_succ hj) (by simpa using hget))

/-- Witness for C1, the spec's own rule-order example: two rules with
identical matches (code exact 200) and statuses "first" and "second";
the earlier rule's status is returned for a raw result with code 200. -/
theorem evaluate_first_matching_rule_wins_witness :
    Evaluate (fun _ => none) { Code := 200, Output := "", Err := none }
      [{ Match := { Code := some { Exact := some 200, Regex := none }, Output := "" },
         Status := { ID := "first", Label := "1" } },
       { Match := { Code := some { Exact := some 200, Regex := none }, Output := "" },
         Status := { ID := "second", Label := "2" } }] none
      = { ID := "first", Label := "1" } := by
  apply evaluate_first_matching_rule_wins (i := 0)
    (r := { Match := { Code := some { Exact := some 200, Regex := none }, Output := "" },
            Status := { ID := "first", Label := "1" } })
  · rfl
  · decide
  · intro j rj hj _
    exact absurd hj (Nat.not_lt_zero j)

/-- Claim C2: for every raw result carrying an execution error, a rule
matches iff its match has no code condition and no output condition
(catch-all shape); any explicitly conditioned rule is skipped
regardless of the result's code or output. -/
theorem matchesRule_execError_iff_catchAll
    (compile : RegexCompiler) (result : Result) (m : Match)
    (he : result.Err.isSome = true) :
    (matchesRule compile result m = true ↔ (m.Code = none ∧ m.Output = "")) := by
  simp [matchesRule, he, Option.isNone_iff_eq_none]

/-- Witness for C2: an errored result matches the catch-all rule shape
and does not match a code-conditioned shape. -/
theorem matchesRule_execError_iff_catchAll_witness :
    matchesRule (fun _ => none) { Code := 0, Output := "", Err := some "boom" }
      { Code := none, Output := "" } = true
    ∧ matchesRule (fun _ => none) { Code := 0, Output := "", Err := some "boom" }
      { Code := some { Exact := some 0, Regex := none }, Output := "" } = false := by
  constructor
  · exact (matchesRule_execError_iff_catchAll (fun _ => none)
      { Code := 0, Output := "", Err := some "boom" }
      { Code := none, Output := "" } rfl).mpr ⟨rfl, rfl⟩
  · have h := matchesRule_execError_iff_catchAll (fun _ => none)
      { Code := 0, Output := "", Err := some "boom" }
      { Code := some { Exact := some 0, Regex := none }, Output := "" } rfl
    cases hb : matchesRule (fun _ => none) { Code := 0, Output := "", Err := some "boom" }
      { Code := some { Exact := some 0, Regex := none }, Output := "" }
    · rfl
    · exact absurd (h.mp hb).1 (by simp)

/-- Claim C3: for a raw result without execution error, a rule with no
conditions always matches, and a rule with conditions matches iff all
specified conditions hold — exact code equality, regex over the decimal
rendering of the code, and the output regex matching the output. -/
theorem matchesRule_noError_iff_spec
    (compile : RegexCompiler) (result : Result) (m : Match)
    (he : result.Err = none) (hwf : MatchWF m) :
    (matchesRule compile result m = true ↔ SpecRuleMatches compile result m) := by
  rw [matchesRule_of_noError compile result m he, Bool.and_eq_true, outputCond_iff]
  unfold SpecRuleMatches
  cases hc : m.Code with
  | none =>
    simp [hc]
  | some mv =>
    have hwfv : MatchValueWF mv := hwf mv hc
    cases hex : mv.Exact with
    | some e =>
      simp only [hc, Option.some.injEq, matchCode, hex]
      constructor
      · rintro ⟨h1, h2⟩
        refine ⟨?_, ?_, h2⟩
        · rintro mv' e' rfl he'
          rw [hex] at he'
          cases he'
          exact eq_of_beq h1
        · rintro mv' re rfl hnone
          rw [hex] at hnone
          cases hnone
      · rintro ⟨h1, _, h3⟩
        refine ⟨?_, h3⟩
        have := h1 mv e rfl hex
        simp [this]
    | none =>
      have hre : ∃ re, mv.Regex = some re := by
        rcases hwfv with h | h
        · rw [hex] at h; cases h
        · exact Option.isSome_iff_exists.mp h
      obtain ⟨re, hre⟩ := hre
      simp only [hc, Option.some.injEq, matchCode, hex, hre]
      constructor
      · rintro ⟨h1, h2⟩
        refine ⟨?_, ?_, h2⟩
        · rintro mv' e' rfl he'
          rw [hex] at he'
          cases he'
        · rintro mv' re' rfl _ hre'
          rw [hre] at hre'
          cases hre'
          exact h1
      · rintro ⟨_, h2, h3⟩
        exact ⟨h2 mv re rfl hex hre, h3⟩

/-- Witness for C3: a rule conditioned on exact code 200 matches an
error-free result with code 200. -/
theorem matchesRule_noError_iff_spec_witness :
    matchesRule (fun _ => none) { Code := 200, Output := "ok", Err := none }
      { Code := some { Exact := some 200, Regex := none }, Output := "" } = true := by
  apply (matchesRule_noError_iff_spec (fun _ => none)
    { Code := 200, Output := "ok", Err := none }
    { Code := some { Exact := some 200, Regex := none }, Output := "" }
    rfl ?_).mpr ?_
  · intro mv h
    injection h with h
    subst h
    exact Or.inl rfl
  · refine ⟨?_, ?_, ?_⟩
    · intro mv e h h2
      injection h with h
      subst h
      injection h2 with h2
    · intro mv re h h2 _
      injection h with h
      subst h
      exact Option.noConfusion h2
    · intro h
      exact absurd rfl h

/-- Claim C4: when no rule matches, `Evaluate` returns the configured
default status when present and otherwise the builtin fallback status,
uniformly for errored and error-free results (the fallback does not
depend on the result at all). -/
theorem evaluate_no_match_fallback
    (compile : RegexCompiler) (result : Result) (rules : List Rule)
    (defaultStatus : Option Status)
    (h : ∀ r ∈ rules, matchesRule compile result r.Match = false) :
    Evaluate compile result rules defaultStatus =
      defaultStatus.getD BuiltinErrorStatus := by
  induction rules with
  | nil => cases defaultStatus <;> simp [Evaluate]
  | cons head tail ih =>
    have h0 := h head (List.mem_cons_self head tail)
    simp only [Evaluate, h0, Bool.false_eq_true, if_false]
    exact ih (fun r hr => h r (List.mem_cons_of_mem _ hr))

/-- Witness for C4: a result with code 503 against a single rule for
exact code 200, with no default status, resolves to the builtin
fallback status. -/
theorem evaluate_no_match_fallback_witness :
    Evaluate (fun _ => none) { Code := 503, Output := "", Err := none }
      [{ Match := { Code := some { Exact := some 200, Regex := none }, Output := "" },
         Status := { ID := "ok", Label := "Y" } }] none = BuiltinErrorStatus := by
  have h := evaluate_no_match_fallback (fun _ => none)
    { Code := 503, Output := "", Err := none }
    [{ Match := { Code := some { Exact := some 200, Regex := none }, Output := "" },
       Status := { ID := "ok", Label := "Y" } }] none ?_
  · simpa using h
  · intro r hr
    rw [List.mem_singleton] at hr
    subst hr
    decide

/-- Claim C9: an output-condition pattern that fails to compile is
treated as a non-match — `matchOutput` returns false on every output,
a rule carrying that condition never fires on any raw result, and
`Evaluate` skips such a rule and continues with the remaining rules
(the functions are total, so evaluation never crashes). -/
theorem matchOutput_uncompilable_nonmatch
    (compile : RegexCompiler) (pattern : String)
    (hc : compile pattern = none) (hp : pattern ≠ "") :
    (∀ output, matchOutput compile output pattern = false)
    ∧ (∀ result m, m.Output = pattern → matchesRule compile result m = false)
    ∧ (∀ result rule rest defaultStatus, rule.Match.Output = pattern →
        Evaluate compile result (rule :: rest) defaultStatus =
          Evaluate compile result rest defaultStatus) := by
  have h1 : ∀ output, matchOutput compile output pattern = false := by
    intro output
    simp [matchOutput, hc]
  have h2 : ∀ result m, m.Output = pattern → matchesRule compile result m = false := by
    intro result m hm
    by_cases he : result.Err.isSome = true
    · simp [matchesRule, he, hm, hp]
    · simp [matchesRule, he, hm, hp, h1]
  refine ⟨h1, h2, ?_⟩
  intro result rule rest defaultStatus hm
  simp [Evaluate, h2 result rule.Match hm]

/-- Witness for C9: with a compiler that rejects the pattern, the
pattern never matches and the rule carrying it is skipped. -/
theorem matchOutput_uncompilable_nonmatch_witness :
    matchOutput (fun _ => none) "some output" "([" = false
    ∧ matchesRule (fun _ => none) { Code := 0, Output := "some output", Err := none }
      { Code := none, Output := "([" } = false :=
  ⟨(matchOutput_uncompilable_nonmatch (fun _ => none) "([" rfl (by decide)).1 "some output",
   (matchOutput_uncompilable_nonmatch (fun _ => none) "([" rfl (by decide)).2.1
     { Code := 0, Output := "some output", Err := none }
     { Code := none, Output := "([" } rfl⟩

/-- Claim C5: a process-probe run in which the process starts and exits
yields a result with no execution error and with the process exit code,
whatever that value is; an execution error appears only when the
process could not be started or located at all. -/
theorem commandCheck_exit_is_success (stdout stderr : String) (c : Int) :
    (CommandCheck stdout stderr (some (CmdRunError.exit c))).Err = none
    ∧ (CommandCheck stdout stderr (some (CmdRunError.exit c))).Code = c
    ∧ (CommandCheck stdout stderr none).Err = none
    ∧ (CommandCheck stdout stderr none).Code = 0
    ∧ (∀ runErr, (CommandCheck stdout stderr runErr).Err.isSome = true →
        ∃ msg, runErr = some (CmdRunError.startFailure msg)) := by
  refine ⟨rfl, rfl, rfl, rfl, ?_⟩
  intro runErr h
  match runErr with
  | none => simp [CommandCheck, commandSuccess] at h
  | some (.exit _) => simp [CommandCheck, commandSuccess] at h
  | some (.startFailure msg) => exact ⟨msg, rfl⟩

/-- Witness for C5, the spec's own example: exit code 42 with no spawn
failure gives an absent execution error and code 42. -/
theorem commandCheck_exit_is_success_witness :
    (CommandCheck "" "" (some (CmdRunError.exit 42))).Err = none
    ∧ (CommandCheck "" "" (some (CmdRunError.exit 42))).Code = 42 :=
  ⟨(commandCheck_exit_is_success "" "" 42).1,
   (commandCheck_exit_is_success "" "" 42).2.1⟩

/-- Claim C6: a network-probe run that receives an HTTP response
(whatever the status, 4xx/5xx included) yields no execution error, the
HTTP status as code, and the body capped at 1 MiB as output; an
execution error appears exactly for the outcomes that prevent a
response from being obtained. -/
theorem httpCheck_response_is_success (status : Int) (body : String) :
    (HTTPCheck (HTTPOutcome.response status body)).Err = none
    ∧ (HTTPCheck (HTTPOutcome.response status body)).Code = status
    ∧ (HTTPCheck (HTTPOutcome.response status body)).Output = capBody body
    ∧ (∀ o, (HTTPCheck o).Err = none → ∃ s b, o = HTTPOutcome.response s b) := by
  refine ⟨rfl, rfl, ?_, ?_⟩
  · simp only [HTTPCheck]
  intro o h
  match o with
  | .reqError m => simp [HTTPCheck] at h
  | .doError m => simp [HTTPCheck] at h
  | .readError s m => simp [HTTPCheck] at h
  | .response s b => exact ⟨s, b, rfl⟩

/-- Witness for C6: a 503 response is a successful probe outcome. -/
theorem httpCheck_response_is_success_witness :
    (HTTPCheck (HTTPOutcome.response 503 "Service Unavailable")).Err = none
    ∧ (HTTPCheck (HTTPOutcome.response 503 "Service Unavailable")).Code = 503 :=
  ⟨(httpCheck_response_is_success 503 "Service Unavailable").1,
   (httpCheck_response_is_success 503 "Service Unavailable").2.1⟩

/-- Counterexample to claim C7: a process probe whose deadline expires
(or whose run-level cancellation fires) while the process is running
does NOT carry an execution error — the process is killed and `Run`
reports an `ExitError` with exit code -1, which the checker classifies
as a successful result with code -1 and no error. -/
theorem command_deadline_kill_no_execError :
    (CommandCheck "" "" (some deadlineExpiredWhileRunning)).Err = none
    ∧ (CommandCheck "" "" (some deadlineExpiredWhileRunning)).Code = -1 :=
  ⟨rfl, rfl⟩

/-- Claim C7 as amended: deadline expiry and external cancellation are
execution errors for the network probe, and for the process probe only
when they prevent the process from being started; a process killed by
the deadline after starting yields code -1 with no execution error.  A
Generate step reports any failure, the deadline kill included, as an
error. -/
theorem deadline_cancellation_execError_amended
    (msg stdout stderr combinedOutput : String) (gen : Generate) :
    (HTTPCheck (HTTPOutcome.doError msg)).Err.isSome = true
    ∧ (CommandCheck stdout stderr (some (CmdRunError.startFailure msg))).Err.isSome = true
    ∧ (CommandCheck stdout stderr (some deadlineExpiredWhileRunning)).Err = none
    ∧ (CommandCheck stdout stderr (some deadlineExpiredWhileRunning)).Code = -1
    ∧ (runGenerate combinedOutput (some deadlineExpiredWhileRunning) gen).isSome = true :=
  ⟨rfl, rfl, rfl, rfl, rfl⟩

/-- Witness for the amended C7 at concrete inputs. -/
theorem deadline_cancellation_execError_amended_witness :
    (HTTPCheck (HTTPOutcome.doError "context deadline exceeded")).Err.isSome = true
    ∧ (CommandCheck "" "" (some deadlineExpiredWhileRunning)).Err = none :=
  ⟨(deadline_cancellation_execError_amended "context deadline exceeded" "" "" ""
      { Command := "sleep 60", Timeout := 0 }).1,
   (deadline_cancellation_execError_amended "context deadline exceeded" "" "" ""
      { Command := "sleep 60", Timeout := 0 }).2.2.1⟩

/-- Claim C8: for every configuration tree and every combination of
probe and generate outcomes, `Run` returns successfully (no top-level
error) with a resolved tree of the same shape — the same number of
groups, per group the same number of tiles, per tile the same number of
slots — and every slot resolved to exactly one `runSlot` result (which
carries exactly one status). -/
theorem run_preserves_shape
    (compile : RegexCompiler) (probe : Checker → Result)
    (genOutcome : Generate → Option String) (cfg : Config) :
    ∃ res : DashboardResult, Run compile probe genOutcome cfg = .ok res
    ∧ res.Groups.length = cfg.Groups.length
    ∧ (∀ (gi : Nat) (g : Group) (rg : GroupResult),
        cfg.Groups[gi]? = some g → res.Groups[gi]? = some rg →
        rg.Tiles.length = g.Tiles.length
        ∧ (∀ (ti : Nat) (t : Tile) (rt : TileResult),
            g.Tiles[ti]? = some t → rg.Tiles[ti]? = some rt →
            rt.Slots.length = t.Slots.length
            ∧ (∀ (si : Nat) (s : Slot) (rs : SlotResult),
                t.Slots[si]? = some s → rt.Slots[si]? = some rs →
                rs = runSlot compile probe s))) := by
  refine ⟨_, rfl, by simp, ?_⟩
  intro gi g rg hg hrg
  simp only [List.getElem?_map, hg, Option.map_some'] at hrg
  injection hrg with hrg
  subst hrg
  refine ⟨by simp, ?_⟩
  intro ti t rt ht hrt
  simp only [List.getElem?_map, ht, Option.map_some'] at hrt
  injection hrt with hrt
  subst hrt
  refine ⟨by simp, ?_⟩
  intro si s rs hs hrs
  simp only [List.getElem?_map, hs, Option.map_some'] at hrs
  injection hrs with hrs
  subst hrs
  rfl

/-- Witness for C8 on a one-group, one-tile, one-slot configuration. -/
theorem run_preserves_shape_witness :
    ∃ res : DashboardResult,
      Run (fun _ => none) (fun _ => { Code := 0, Output := "", Err := none })
        (fun _ => none)
        { Title := "t", Theme := "dark", Refresh := 0,
          Groups := [{ Name := "g",
                       Tiles := [{ Name := "tile", Display := "", Icon := "", Link := "",
                                   Banner := none, Generate := none,
                                   Slots := [{ Name := "s",
                                               Check := { CheckType := "command",
                                                          Target := "true", Timeout := 0 },
                                               Rules := [],
                                               DefaultStatus := none }] }] }] }
        = .ok res
      ∧ res.Groups.length = 1 := by
  obtain ⟨res, hok, hlen, _⟩ := run_preserves_shape
    (fun _ => none) (fun _ => { Code := 0, Output := "", Err := none })
    (fun _ => none)
    { Title := "t", Theme := "dark", Refresh := 0,
      Groups := [{ Name := "g",
                   Tiles := [{ Name := "tile", Display := "", Icon := "", Link := "",
                               Banner := none, Generate := none,
                               Slots := [{ Name := "s",
                                           Check := { CheckType := "command",
                                                      Target := "true", Timeout := 0 },
                                           Rules := [],
                                           DefaultStatus := none }] }] }] }
  exact ⟨res, hok, by simpa using hlen⟩

/-- Claim C10: a slot whose check has an unknown kind resolves directly
to its default status when configured and otherwise to the builtin
fallback status, with empty raw output, without consulting the slot's
rules at all (changing the rules cannot change the outcome). -/
theorem runSlot_unknown_kind_default
    (compile : RegexCompiler) (probe : Checker → Result) (slot : Slot)
    (h1 : slot.Check.CheckType ≠ "http") (h2 : slot.Check.CheckType ≠ "command") :
    runSlot compile probe slot =
      { Name := slot.Name
        Status := slot.DefaultStatus.getD BuiltinErrorStatus
        Output := "" }
    ∧ (∀ rules, runSlot compile probe { slot with Rules := rules } =
        runSlot compile probe slot) := by
  have hnc : NewChecker slot.Check.CheckType slot.Check.Target slot.Check.Timeout =
      .error ("unknown check type: " ++ slot.Check.CheckType) := by
    unfold NewChecker
    split <;> split <;>
      (first
        | rfl
        | exact absurd ‹_› h1
        | exact absurd ‹_› h2)
  constructor
  · rw [runSlot, hnc]
    cases slot.DefaultStatus <;> simp
  · intro rules
    rw [runSlot, runSlot]
    simp only [hnc]

/-- Witness for C10: a slot of kind "ftp" with a configured default
status and a catch-all rule resolves to the default status, and the
catch-all rule's status is never used. -/
theorem runSlot_unknown_kind_default_witness :
    runSlot (fun _ => none) (fun _ => { Code := 0, Output := "", Err := none })
      { Name := "s"
        Check := { CheckType := "ftp", Target := "ftp://x", Timeout := 0 }
        Rules := [{ Match := { Code := none, Output := "" },
                    Status := { ID := "catch", Label := "C" } }]
        DefaultStatus := some { ID := "unknown", Label := "?" } } =
      { Name := "s", Status := { ID := "unknown", Label := "?" }, Output := "" } := by
  have h := (runSlot_unknown_kind_default
    (fun _ => none) (fun _ => { Code := 0, Output := "", Err := none })
    { Name := "s"
      Check := { CheckType := "ftp", Target := "ftp://x", Timeout := 0 }
      Rules := [{ Match := { Code := none, Output := "" },
                  Status := { ID := "catch", Label := "C" } }]
      DefaultStatus := some { ID := "unknown", Label := "?" } }
    (by decide) (by decide)).1
  simpa using h

end Ilias
